import Mathlib

set_option autoImplicit false

namespace MCPTui

/-- JSON values as produced by Python json.loads: None, bool, int, str, list, dict.
Floats are not modelled; none of the verified paths depend on them. -/
inductive Json where
  | null
  | bool (b : Bool)
  | num (n : Int)
  | str (s : String)
  | arr (items : List Json)
  | obj (fields : List (String × Json))

mutual

/-- Decidable equality of JSON values (the nested inductive defeats deriving). -/
def Json.decEq : (a b : Json) → Decidable (a = b)
  | .null, .null => .isTrue rfl
  | .null, .bool _ => .isFalse (by simp)
  | .null, .num _ => .isFalse (by simp)
  | .null, .str _ => .isFalse (by simp)
  | .null, .arr _ => .isFalse (by simp)
  | .null, .obj _ => .isFalse (by simp)
  | .bool _, .null => .isFalse (by simp)
  | .bool a, .bool b =>
    if h : a = b then .isTrue (by rw [h]) else .isFalse (by simp [h])
  | .bool _, .num _ => .isFalse (by simp)
  | .bool _, .str _ => .isFalse (by simp)
  | .bool _, .arr _ => .isFalse (by simp)
  | .bool _, .obj _ => .isFalse (by simp)
  | .num _, .null => .isFalse (by simp)
  | .num _, .bool _ => .isFalse (by simp)
  | .num a, .num b =>
    if h : a = b then .isTrue (by rw [h]) else .isFalse (by simp [h])
  | .num _, .str _ => .isFalse (by simp)
  | .num _, .arr _ => .isFalse (by simp)
  | .num _, .obj _ => .isFalse (by simp)
  | .str _, .null => .isFalse (by simp)
  | .str _, .bool _ => .isFalse (by simp)
  | .str _, .num _ => .isFalse (by simp)
  | .str a, .str b =>
    if h : a = b then .isTrue (by rw [h]) else .isFalse (by simp [h])
  | .str _, .arr _ => .isFalse (by simp)
  | .str _, .obj _ => .isFalse (by simp)
  | .arr _, .null => .isFalse (by simp)
  | .arr _, .bool _ => .isFalse (by simp)
  | .arr _, .num _ => .isFalse (by simp)
  | .arr _, .str _ => .isFalse (by simp)
  | .arr a, .arr b =>
    match decEqJsonList a b with
    | .isTrue h => .isTrue (by rw [h])
    | .isFalse h => .isFalse (by simp [h])
  | .arr _, .obj _ => .isFalse (by simp)
  | .obj _, .null => .isFalse (by simp)
  | .obj _, .bool _ => .isFalse (by simp)
  | .obj _, .num _ => .isFalse (by simp)
  | .obj _, .str _ => .isFalse (by simp)
  | .obj _, .arr _ => .isFalse (by simp)
  | .obj a, .obj b =>
    match decEqJsonFields a b with
    | .isTrue h => .isTrue (by rw [h])
    | .isFalse h => .isFalse (by simp [h])

/-- Decidable equality of JSON value lists. -/
def decEqJsonList : (a b : List Json) → Decidable (a = b)
  | [], [] => .isTrue rfl
  | [], _ :: _ => .isFalse (by simp)
  | _ :: _, [] => .isFalse (by simp)
  | x :: xs, y :: ys =>
    match Json.decEq x y, decEqJsonList xs ys with
    | .isTrue h1, .isTrue h2 => .isTrue (by rw [h1, h2])
    | .isFalse h1, _ => .isFalse (by simp [h1])
    | _, .isFalse h2 => .isFalse (by simp [h2])

/-- Decidable equality of JSON object field lists. -/
def decEqJsonFields : (a b : List (String × Json)) → Decidable (a = b)
  | [], [] => .isTrue rfl
  | [], _ :: _ => .isFalse (by simp)
  | _ :: _, [] => .isFalse (by simp)
  | (k1, v1) :: xs, (k2, v2) :: ys =>
    if hk : k1 = k2 then
      match Json.decEq v1 v2, decEqJsonFields xs ys with
      | .isTrue h1, .isTrue h2 => .isTrue (by rw [hk, h1, h2])
      | .isFalse h1, _ => .isFalse (by simp [h1])
      | _, .isFalse h2 => .isFalse (by simp [h2])
    else .isFalse (by simp [hk])

end

instance : DecidableEq Json := Json.decEq

/-- A single-quote character, used when rendering Python str() of containers. -/
def sq : String := String.singleton (Char.ofNat 39)

/-- Lookup of a key in a JSON object field list (Python dict indexing / dict.get). -/
def jlookup (key : String) : List (String × Json) → Option Json
  | [] => none
  | (k, v) :: rest => if k = key then some v else jlookup key rest

/-- Python truthiness of a JSON value: None, False, 0, empty str, empty list and
empty dict are falsy; everything else is truthy. -/
def Json.truthy : Json → Bool
  | .null => false
  | .bool b => b
  | .num n => n != 0
  | .str s => s != ""
  | .arr items => !items.isEmpty
  | .obj fields => !fields.isEmpty

/-- Substring test on character lists (Python membership test on a string). -/
def listInfixOf (needle : List Char) : List Char → Bool
  | [] => needle.isEmpty
  | c :: rest => needle.isPrefixOf (c :: rest) || listInfixOf needle rest

/-- Python membership test of a string key in a JSON value:
key lookup for dicts, element membership for lists, substring test for strings;
a TypeError (modelled as error) for the scalar types. -/
def pyIn (key : String) : Json → Except Unit Bool
  | .obj fields => .ok ((jlookup key fields).isSome)
  | .arr items => .ok (items.contains (Json.str key))
  | .str s => .ok (listInfixOf key.data s.data)
  | _ => .error ()

/-- Python subscript value[key] with a string key: dict lookup (KeyError when the
key is absent), TypeError for every other type - both modelled as error. -/
def pyGetItem (key : String) : Json → Except Unit Json
  | .obj fields =>
    match jlookup key fields with
    | some v => .ok v
    | none => .error ()
  | _ => .error ()

mutual

/-- Python str() of a JSON value (scalars exactly; containers via repr of members). -/
def Json.pyStr : Json → String
  | .null => "None"
  | .bool true => "True"
  | .bool false => "False"
  | .num n => toString n
  | .str s => s
  | .arr items => "[" ++ pyReprList items ++ "]"
  | .obj fields => "\x7b" ++ pyReprFields fields ++ "\x7d"

/-- Python repr() of a JSON value (strings get quoted; escaping is not modelled). -/
def Json.pyRepr : Json → String
  | .null => "None"
  | .bool true => "True"
  | .bool false => "False"
  | .num n => toString n
  | .str s => sq ++ s ++ sq
  | .arr items => "[" ++ pyReprList items ++ "]"
  | .obj fields => "\x7b" ++ pyReprFields fields ++ "\x7d"

/-- Comma-separated repr of list members. -/
def pyReprList : List Json → String
  | [] => ""
  | [j] => Json.pyRepr j
  | j :: rest => Json.pyRepr j ++ ", " ++ pyReprList rest

/-- Comma-separated repr of dict entries. -/
def pyReprFields : List (String × Json) → String
  | [] => ""
  | [(k, v)] => sq ++ k ++ sq ++ ": " ++ Json.pyRepr v
  | (k, v) :: rest => sq ++ k ++ sq ++ ": " ++ Json.pyRepr v ++ ", " ++ pyReprFields rest

end

mutual

/-- json.dumps of a JSON value (indentation and string escaping are not modelled;
no verified property inspects the rendered text). -/
def Json.dumps : Json → String
  | .null => "null"
  | .bool true => "true"
  | .bool false => "false"
  | .num n => toString n
  | .str s => "\"" ++ s ++ "\""
  | .arr items => "[" ++ dumpsList items ++ "]"
  | .obj fields => "\x7b" ++ dumpsFields fields ++ "\x7d"

/-- Comma-separated dumps of list members. -/
def dumpsList : List Json → String
  | [] => ""
  | [j] => Json.dumps j
  | j :: rest => Json.dumps j ++ ", " ++ dumpsList rest

/-- Comma-separated dumps of dict entries. -/
def dumpsFields : List (String × Json) → String
  | [] => ""
  | [(k, v)] => "\"" ++ k ++ "\": " ++ Json.dumps v
  | (k, v) :: rest => "\"" ++ k ++ "\": " ++ Json.dumps v ++ ", " ++ dumpsFields rest

end

/-- A discovered MCP tool descriptor (mcp_client.py, class MCPTool). The dataclass
does not enforce its str annotations, so name/description/parameters hold whatever
JSON values the server sent. -/
structure MCPTool where
  name : Json
  description : Json
  parameters : Json
  server_name : String
deriving DecidableEq

/-- The dollar character. -/
def dollarChar : Char := Char.ofNat 36

/-- The opening-brace character. -/
def lbraceChar : Char := Char.ofNat 123

/-- The closing-brace character. -/
def rbraceChar : Char := Char.ofNat 125

/-- Split a character list at the first closing brace: returns the characters
before it (none of which is a closing brace) and the characters after it. -/
def splitAtRBrace : List Char → Option (List Char × List Char)
  | [] => none
  | c :: rest =>
    if c = rbraceChar then some ([], rest)
    else (splitAtRBrace rest).map (fun p => (c :: p.1, p.2))

/-- Scan of one template value, embedding re.sub over the dollar-brace-name-brace
pattern in MCPServer._resolve_env_variables: each non-overlapping occurrence of a
dollar sign, opening brace, one or more non-closing-brace characters, closing brace
is replaced by the ambient value of the named variable; a missing variable raises
(modelled as error carrying the variable name). Where the pattern fails to match
(no closing brace, or an empty name) the scan advances one character, as the regex
engine does. -/
def resolveChars (osEnv : String → Option String) : List Char → Except String (List Char)
  | [] => .ok []
  | [c] => .ok [c]
  | c :: d :: rest =>
    if c = dollarChar && d = lbraceChar then
      match hsplit : splitAtRBrace rest with
      | some (nameCs, tail) =>
        if nameCs.isEmpty then (resolveChars osEnv (d :: rest)).map (fun out => c :: out)
        else
          match osEnv (String.mk nameCs) with
          | none => .error (String.mk nameCs)
          | some v => (resolveChars osEnv tail).map (fun out => v.data ++ out)
      | none => (resolveChars osEnv (d :: rest)).map (fun out => c :: out)
    else (resolveChars osEnv (d :: rest)).map (fun out => c :: out)
termination_by cs => cs.length
decreasing_by
all_goals first
  | (simp only [List.length_cons]; omega)
  | (have key : ∀ (l : List Char) (p : List Char × List Char),
         splitAtRBrace l = some p → p.2.length ≤ l.length := by
       intro l
       induction l with
       | nil => intro p hp; simp [splitAtRBrace] at hp
       | cons a t ih =>
         intro p hp
         simp only [splitAtRBrace] at hp
         split at hp
         · cases hp
           simp
         · cases ht : splitAtRBrace t with
           | none => rw [ht] at hp; simp at hp
           | some q =>
             rw [ht] at hp
             simp at hp
             have := ih q ht
             rw [← hp]
             simp only [List.length_cons]
             omega
     have hk : tail.length ≤ rest.length := by
       simpa using key rest (nameCs, tail) hsplit
     simp only [List.length_cons]
     omega)

/-- The ValueError message raised by MCPServer._resolve_env_variables for a
missing referenced environment variable. -/
def envVarErrMsg (varName serverName : String) : String :=
  "Environment variable " ++ sq ++ varName ++ sq ++ " not found for server " ++ sq
    ++ serverName ++ sq

/-- MCPServer._resolve_env_variables: resolve each template value of the per-server
env dict against the ambient process environment (an oracle from names to values);
the first missing referenced variable raises a ValueError naming the variable and
the owning server. -/
def resolveEnvVariables (osEnv : String → Option String) (serverName : String) :
    List (String × String) → Except String (List (String × String))
  | [] => .ok []
  | (key, value) :: rest =>
    match resolveChars osEnv value.data with
    | .error varName => .error (envVarErrMsg varName serverName)
    | .ok cs =>
      match resolveEnvVariables osEnv serverName rest with
      | .error e => .error e
      | .ok restResolved => .ok ((key, String.mk cs) :: restResolved)

/-- Runtime state of one MCPServer object (mcp_client.py, MCPServer.__init__):
resolved env, discovered tools, connected flag, next request id (starts at 1). -/
structure ServerState where
  name : String
  command : String
  args : List String
  env : List (String × String)
  tools : List MCPTool
  connected : Bool
  nextId : Nat
deriving DecidableEq

/-- One entry of the server configuration mapping (command, args, env). -/
structure ServerCfg where
  command : String
  args : List String
  env : List (String × String)
deriving DecidableEq

/-- MCPServer.__init__: env templates are resolved during construction; a missing
referenced variable raises out of the constructor, so no server object results. -/
def mkMCPServer (osEnv : String → Option String) (name command : String) (args : List String)
    (env : List (String × String)) : Except String ServerState :=
  match resolveEnvVariables osEnv name env with
  | .error e => .error e
  | .ok resolved =>
    .ok { name := name, command := command, args := args, env := resolved,
          tools := [], connected := false, nextId := 1 }

/-- MCPServer._get_next_id: return the current next_id and increment it. -/
def getNextId (s : ServerState) : Nat × ServerState :=
  (s.nextId, { s with nextId := s.nextId + 1 })

/-- The ids issued by n successive _get_next_id calls on a server, in order. -/
def issuedIds (s : ServerState) : Nat → List Nat
  | 0 => []
  | n + 1 =>
    let p := getNextId s
    p.1 :: issuedIds p.2 n

/-- The bounded number of read attempts in MCPServer._send_request. -/
def maxResponseAttempts : Nat := 10

/-- The polling read loop of MCPServer._send_request: up to n attempts starting at
attempt index k; the oracle gives the line readline returns at each attempt (empty
string when no line arrives). The first non-empty line is stripped and kept. -/
def pollAux (lines : Nat → String) : Nat → Nat → String
  | 0, _ => ""
  | n + 1, k => if lines k ≠ "" then (lines k).trim else pollAux lines n (k + 1)

/-- MCPServer._send_request after the write: poll for one response line; no line
within the bound, or a line json.loads rejects (parse oracle returns none), yields
None; otherwise the parsed message. -/
def sendRequestResult (parse : String → Option Json) (lines : Nat → String) : Option Json :=
  let responseStr := pollAux lines maxResponseAttempts 0
  if responseStr ≠ "" then parse responseStr else none

/-- MCPServer.call_tool: allocate the next request id, send the tools/call request
and return whatever _send_request produced; nothing else on the server changes. -/
def serverCallTool (parse : String → Option Json) (s : ServerState) (toolName arguments : Json)
    (lines : Nat → String) : Option Json × ServerState :=
  let p := getNextId s
  (sendRequestResult parse lines, p.2)

/-- The check guarding the initialize response in MCPServer._initialize: the
handshake succeeds when the response is present, truthy, and the membership test
of the error key evaluates to false (a TypeError from that test also fails the
handshake, via the surrounding exception handler). -/
def handshakeOk : Option Json → Bool
  | none => false
  | some r =>
    r.truthy &&
      (match pyIn "error" r with
       | .ok false => true
       | _ => false)

/-- The tool-parsing loop of MCPServer._list_tools: each entry contributes a
descriptor whose description defaults to the empty string and whose parameters
default to the empty schema; an entry without a name field (including a non-dict
entry, whose subscription raises) aborts the loop, keeping the descriptors
appended so far; the flag records whether the loop aborted. -/
def parseTools (serverName : String) : List Json → List MCPTool × Bool
  | [] => ([], false)
  | entry :: rest =>
    match entry with
    | Json.obj kvs =>
      match jlookup "name" kvs with
      | some n =>
        let tool : MCPTool :=
          { name := n, description := (jlookup "description" kvs).getD (Json.str ""),
            parameters := (jlookup "inputSchema" kvs).getD (Json.obj []),
            server_name := serverName }
        let p := parseTools serverName rest
        (tool :: p.1, p.2)
      | none => ([], true)
    | _ => ([], true)

/-- The effect of MCPServer._list_tools on the tools list, given the tools/list
response (None on timeout or unparsable line). Every failure inside the method is
caught there, so the method never raises: a missing, falsy, error-carrying or
malformed response leaves the previous tools (or the emptied list, when the body
reached the assignment clearing it before raising). -/
def listToolsUpdate (serverName : String) (response : Option Json)
    (prevTools : List MCPTool) : List MCPTool :=
  match response with
  | none => prevTools
  | some r =>
    if r.truthy then
      match pyIn "result" r with
      | .error _ => prevTools
      | .ok false => prevTools
      | .ok true =>
        match pyGetItem "result" r with
        | .error _ => prevTools
        | .ok resultVal =>
          match pyIn "tools" resultVal with
          | .error _ => prevTools
          | .ok false => prevTools
          | .ok true =>
            match pyGetItem "tools" resultVal with
            | .error _ => prevTools
            | .ok (Json.arr entries) => (parseTools serverName entries).1
            | .ok _ => []
    else prevTools

/-- MCPServer._initialize: allocate an id and send initialize; a failed handshake
raises (start returns False, connected untouched). On success, send the
initialized notification (no id, failures only logged), allocate an id and run
_list_tools (which never raises), then set connected to True. The Bool reports
whether start succeeds. -/
def initializeServer (s : ServerState) (initResponse toolsResponse : Option Json) :
    ServerState × Bool :=
  let p1 := getNextId s
  if handshakeOk initResponse then
    let p2 := getNextId p1.2
    let s2 := p2.2
    let newTools := listToolsUpdate s2.name toolsResponse s2.tools
    ({ s2 with tools := newTools, connected := true }, true)
  else (p1.2, false)

/-- MCPServer.start: spawning and the liveness grace check are external; the
oracle says whether the process came up. On spawn failure nothing on the server
state changes and start returns False; otherwise _initialize runs. -/
def serverStart (spawnOk : Bool) (initResponse toolsResponse : Option Json)
    (s : ServerState) : ServerState × Bool :=
  if spawnOk then initializeServer s initResponse toolsResponse else (s, false)

/-- MCPClient.load_servers: construct and start each configured server in order.
Construction resolves env templates and can raise; load_servers has no handler, so
that error escapes the loop: the servers list holds only the servers already
processed, and the optional string is the escaped error message. start failures,
by contrast, are caught per server (start returns False) and the loop continues. -/
def loadServers (osEnv : String → Option String) (spawnOk : String → Bool)
    (initResponses toolsResponses : String → Option Json) :
    List (String × ServerCfg) → List ServerState × Option String
  | [] => ([], none)
  | (name, cfg) :: rest =>
    match mkMCPServer osEnv name cfg.command cfg.args cfg.env with
    | .error msg => ([], some msg)
    | .ok s =>
      let q := serverStart (spawnOk name) (initResponses name) (toolsResponses name) s
      let p := loadServers osEnv spawnOk initResponses toolsResponses rest
      (q.1 :: p.1, p.2)

/-- MCPClient.get_all_tools: concatenate the tools of the connected servers, in
registration order. -/
def getAllTools (servers : List ServerState) : List MCPTool :=
  servers.foldl (fun allTools s => if s.connected then allTools ++ s.tools else allTools) []

/-- The lookup inside MCPClient.call_tool: the first connected server, in
registration order, whose tools list holds the requested name. -/
def findToolServer : List ServerState → Json → Option ServerState
  | [], _ => none
  | s :: rest, toolName =>
    if s.connected && s.tools.any (fun t => t.name == toolName) then some s
    else findToolServer rest toolName

/-- MCPClient.call_tool: resolve the owning server and dispatch to its call_tool;
None when no connected server owns the name. -/
def clientCallTool (parse : String → Option Json) (servers : List ServerState)
    (toolName arguments : Json) (lines : Nat → String) : Option Json :=
  match findToolServer servers toolName with
  | some s => (serverCallTool parse s toolName arguments lines).1
  | none => none

/-- A model response text, viewed as the alternation of plain text and the fenced
tool-call blocks the findall regex of send_message_to_gemini captures; a block
segment carries the captured body. The rendering of the segments is the raw
response string; substitution on the string by str.replace of the full fenced
block corresponds to substitution on the block segments, under the assumption
that the fence marker occurs only as an actual fence. -/
inductive Seg where
  | text (s : String)
  | block (body : String)
deriving DecidableEq

/-- The opening fence of a tool-call block. -/
def fenceOpen : String := "```mcp-tool-call\n"

/-- The closing fence of a tool-call block. -/
def fenceClose : String := "\n```"

/-- The raw text of one segment. -/
def renderSeg : Seg → String
  | .text s => s
  | .block b => fenceOpen ++ b ++ fenceClose

/-- The raw response text of a segmented response. -/
def render (segs : List Seg) : String :=
  String.join (segs.map renderSeg)

/-- re.findall of the tool-call pattern over the response: the block bodies in
order of appearance. -/
def extractBlocks (segs : List Seg) : List String :=
  segs.filterMap (fun s =>
    match s with
    | Seg.block b => some b
    | Seg.text _ => none)

/-- str.replace of the full fenced block with the replacement text, applied to
every occurrence of that block in the transcript. -/
def substBlock (body repl : String) (segs : List Seg) : List Seg :=
  segs.map (fun s =>
    match s with
    | Seg.block b => if b = body then Seg.text repl else Seg.block b
    | Seg.text t => Seg.text t)

/-- The labeled rendering substituted for an executed block in the transcript. -/
def replText (toolName : Json) (content : String) : String :=
  "**Tool Result (" ++ toolName.pyStr ++ "):**\n" ++ content

/-- The message prefix used by _extract_content_from_result when its own body
raises (the exception text is not modelled). -/
def errExtractPrefix : String := "Error extracting content"

/-- The text-collecting loop over a content array: both source branches append
the text item of a dict entry whenever it is present (the first branch merely
also checks the type tag), so every dict entry with a text key contributes it. -/
def textParts : List Json → List Json
  | [] => []
  | item :: rest =>
    match item with
    | Json.obj kvs =>
      match jlookup "text" kvs with
      | some t => t :: textParts rest
      | none => textParts rest
    | _ => textParts rest

/-- Python newline-join of collected text parts: succeeds only when every part is
a string (a non-string part raises a TypeError, modelled as none). -/
def joinTextParts : List Json → Option String
  | [] => some ""
  | Json.str s :: rest =>
    (joinTextParts rest).map (fun r => if rest.isEmpty then s else s ++ "\n" ++ r)
  | _ => none

/-- The outcome of one statement region of _extract_content_from_result. -/
inductive PyOutcome where
  | ret (s : String)
  | raised
  | fallthrough
deriving DecidableEq

/-- The content-array region: when result data is a dict with a content key whose
value is a nonempty list, collect text parts; nonempty parts return their join (a
non-string part raises); otherwise fall through. -/
def contentArrayStep (resultData : Json) : PyOutcome :=
  match resultData with
  | Json.obj kvs =>
    match jlookup "content" kvs with
    | some (Json.arr items) =>
      if items.isEmpty then .fallthrough
      else
        let parts := textParts items
        if parts.isEmpty then .fallthrough
        else
          match joinTextParts parts with
          | some s => .ret s
          | none => .raised
    | some _ => .fallthrough
    | none => .fallthrough
  | _ => .fallthrough

/-- The fixed key list probed for a direct text field in a structured result. -/
def wellKnownTextKeys : List String := ["text", "message", "content", "output", "data"]

/-- Probe the keys in order; a present key whose value is a string returns it,
any other value moves to the next key. -/
def findTextKeyAux (kvs : List (String × Json)) : List String → Option String
  | [] => none
  | k :: rest =>
    match jlookup k kvs with
    | some (Json.str s) => some s
    | _ => findTextKeyAux kvs rest

/-- The well-known-key probe over a dict result. -/
def findTextKey (kvs : List (String × Json)) : Option String :=
  findTextKeyAux kvs wellKnownTextKeys

/-- The result-data region of _extract_content_from_result: content array first,
then a direct string, then the well-known keys of a dict falling back to its
dump, a list dumped directly; scalars fall through to the error region. -/
def resultDataStep (resultData : Json) : PyOutcome :=
  match contentArrayStep resultData with
  | .ret s => .ret s
  | .raised => .raised
  | .fallthrough =>
    match resultData with
    | Json.str s => .ret s
    | Json.obj kvs =>
      match findTextKey kvs with
      | some s => .ret s
      | none => .ret (Json.dumps (Json.obj kvs))
    | Json.arr items => .ret (Json.dumps (Json.arr items))
    | _ => .fallthrough

/-- The error region of _extract_content_from_result: an error key renders the
error message (the message field of a dict error, else str of the payload);
subscription failures raise to the handler; no error key dumps the whole
response. -/
def extractErrorOrDump (result : Json) : String :=
  match pyIn "error" result with
  | .error _ => errExtractPrefix
  | .ok true =>
    match pyGetItem "error" result with
    | .error _ => errExtractPrefix
    | .ok errorInfo =>
      match errorInfo with
      | Json.obj kvs =>
        match jlookup "message" kvs with
        | some m => "Error: " ++ m.pyStr
        | none => "Error: " ++ (Json.obj kvs).pyStr
      | _ => "Error: " ++ errorInfo.pyStr
  | .ok false => Json.dumps result

/-- MCPClientApp._extract_content_from_result over the raw tool response. -/
def extractContent (result : Json) : String :=
  match pyIn "result" result with
  | .error _ => errExtractPrefix
  | .ok true =>
    match pyGetItem "result" result with
    | .error _ => errExtractPrefix
    | .ok resultData =>
      match resultDataStep resultData with
      | .ret s => s
      | .raised => errExtractPrefix
      | .fallthrough => extractErrorOrDump result
  | .ok false => extractErrorOrDump result

/-- One accumulated tool/result pair sent back to the model. -/
structure ToolCallRecord where
  tool : Json
  result : String
deriving DecidableEq

/-- The log events send_message_to_gemini emits (message text abstracted). -/
inductive LogEvent where
  | callingTool (toolName arguments : Json)
  | toolSuccess (toolName : Json)
  | toolFailed (toolName : Json)
  | invalidJson (raw : String)
  | processError
  | maxIterationsReached
deriving DecidableEq

/-- The per-turn mutable state of the tool-call processing loop: the transcript
copy being substituted into, the accumulated results, the number of
mcp_client.call_tool invocations made so far across the exchange (indexing the
call oracle, so stateful tools are expressible), and the emitted log events. -/
structure TurnSt where
  transcript : List Seg
  results : List ToolCallRecord
  counter : Nat
  logs : List LogEvent
deriving DecidableEq

/-- Python truthiness of the value call_tool returned: None and falsy payloads
(such as the empty dict) take the failure branch. -/
def resultTruthy : Option Json → Bool
  | none => false
  | some r => r.truthy

/-- The body of the per-block loop in send_message_to_gemini: parse the captured
body (json.loads via the parse oracle; failure logs and skips), read the tool
field (a non-dict raises to the generic handler, which logs and skips; a missing
or falsy tool name silently skips), invoke the tool, and on a truthy result
substitute every occurrence of the block in the transcript, record the pair and
log success; otherwise log failure and record nothing. -/
def processBlock (parse : String → Option Json) (call : Nat → Json → Json → Option Json)
    (st : TurnSt) (raw : String) : TurnSt :=
  match parse raw with
  | none => { st with logs := st.logs ++ [LogEvent.invalidJson raw] }
  | some (Json.obj kvs) =>
    match jlookup "tool" kvs with
    | some tn =>
      if tn.truthy then
        let args := (jlookup "arguments" kvs).getD (Json.obj [])
        let res := call st.counter tn args
        let st1 : TurnSt :=
          { st with counter := st.counter + 1,
                    logs := st.logs ++ [LogEvent.callingTool tn args] }
        if resultTruthy res then
          match res with
          | some r =>
            let content := extractContent r
            { st1 with
              transcript := substBlock raw (replText tn content) st1.transcript,
              results := st1.results ++ [{ tool := tn, result := content }],
              logs := st1.logs ++ [LogEvent.toolSuccess tn] }
          | none => { st1 with logs := st1.logs ++ [LogEvent.toolFailed tn] }
        else { st1 with logs := st1.logs ++ [LogEvent.toolFailed tn] }
      else st
    | none => st
  | some _ => { st with logs := st.logs ++ [LogEvent.processError] }

/-- The whole per-turn loop over the captured blocks, started on the raw response
transcript with no accumulated results. -/
def processTurn (parse : String → Option Json) (call : Nat → Json → Json → Option Json)
    (counter : Nat) (response : List Seg) (blocks : List String) : TurnSt :=
  blocks.foldl (processBlock parse call)
    { transcript := response, results := [], counter := counter, logs := [] }

/-- One line of the follow-up message for an accumulated pair. -/
def resultLine (r : ToolCallRecord) : String :=
  "**" ++ r.tool.pyStr ++ " result:**\n" ++ r.result ++ "\n\n"

/-- The follow-up message enumerating the accumulated pairs. -/
def buildResultsMessage (results : List ToolCallRecord) : String :=
  "Here are the tool results:\n\n" ++ String.join (results.map resultLine) ++
    "Please continue with your response based on these results."

/-- What send_message_to_gemini produces for one user message: the returned text,
the number of iterations performed, the emitted log events, and whether the
iteration cap cut the exchange off. -/
structure LoopResult where
  answer : String
  iterations : Nat
  logs : List LogEvent
  truncated : Bool
deriving DecidableEq

/-- The iteration cap of send_message_to_gemini. -/
def maxToolIterations : Nat := 10

/-- The while loop of send_message_to_gemini, with fuel equal to the remaining
iterations. The model-completion provider is an oracle from the iteration number
and the pending message to the segmented response. Exhausted fuel logs the
truncation event and returns the raw text of the last response; a turn without
blocks returns its raw text; a turn whose blocks produced no results returns the
substituted transcript; otherwise the follow-up message becomes the pending
message and the loop continues. -/
def runLoop (model : Nat → String → List Seg) (parse : String → Option Json)
    (call : Nat → Json → Json → Option Json) :
    Nat → Nat → String → Nat → List LogEvent → List Seg → LoopResult
  | 0, iteration, _, _, logs, lastResponse =>
    { answer := render lastResponse, iterations := iteration,
      logs := logs ++ [LogEvent.maxIterationsReached], truncated := true }
  | fuel + 1, iteration, currentMessage, counter, logs, _ =>
    let it := iteration + 1
    let response := model it currentMessage
    let toolCalls := extractBlocks response
    if toolCalls.isEmpty then
      { answer := render response, iterations := it, logs := logs, truncated := false }
    else
      let turn := processTurn parse call counter response toolCalls
      if turn.results.isEmpty then
        { answer := render turn.transcript, iterations := it,
          logs := logs ++ turn.logs, truncated := false }
      else
        runLoop model parse call fuel it (buildResultsMessage turn.results) turn.counter
          (logs ++ turn.logs) response

/-- MCPClientApp.send_message_to_gemini for one user message. -/
def sendMessageToGemini (model : Nat → String → List Seg) (parse : String → Option Json)
    (call : Nat → Json → Json → Option Json) (userMessage : String) : LoopResult :=
  runLoop model parse call maxToolIterations 0 userMessage 0 [] []

/-- The expected accumulation for k successive invocations of one tool whose
call results are given by r at successive counter values starting at c. -/
def resList (toolName : Json) (r : Nat → Json) (c : Nat) : Nat → List ToolCallRecord
  | 0 => []
  | k + 1 =>
    { tool := toolName, result := extractContent (r c) } :: resList toolName r (c + 1) k

/-- The descriptor one well-formed tools/list entry yields: a dict entry with a
name field, description defaulting to the empty string and parameters defaulting
to the empty schema; none for an entry the parsing loop aborts on. -/
def entryTool (serverName : String) : Json → Option MCPTool
  | Json.obj kvs =>
    (jlookup "name" kvs).map (fun n =>
      { name := n, description := (jlookup "description" kvs).getD (Json.str ("")),
        parameters := (jlookup "inputSchema" kvs).getD (Json.obj []),
        server_name := serverName })
  | _ => none

/-- Fixture: the captured body of a block that asks for an unregistered tool. -/
def c1raw : String := "call-ghost-block"

/-- Fixture: a parse oracle mapping that body to a tool-call object naming the
tool ghost. -/
def c1parse : String → Option Json := fun r =>
  if r = c1raw then some (Json.obj [("tool", Json.str ("ghost"))]) else none

/-- Fixture: a model response with one tool-call block for the ghost tool. -/
def c1resp : List Seg := [Seg.text ("Let me call it. "), Seg.block c1raw]

/-- Fixture: a model oracle that always answers with that response. -/
def c1model : Nat → String → List Seg := fun _ _ => c1resp

/-- Fixture: a connected server exposing one tool named ping. -/
def c1server : ServerState :=
  { name := "srv", command := "cmd", args := [], env := [],
    tools := [{ name := Json.str ("ping"), description := Json.str (""),
                parameters := Json.obj [], server_name := "srv" }],
    connected := true, nextId := 3 }

/-- Fixture: the call oracle backed by the client registry holding only that
server, so the ghost tool is unknown to the registry. -/
def c1call : Nat → Json → Json → Option Json :=
  fun _ tn args => clientCallTool c1parse [c1server] tn args (fun _ => "")

/-- Fixture: the turn state before any block of the ghost-tool turn is
processed. -/
def c1state : TurnSt :=
  { transcript := c1resp, results := [], counter := 0, logs := [] }

/-- Fixture: a disconnected server that nevertheless holds a tool descriptor. -/
def c8deadServer : ServerState :=
  { name := "dead", command := "cmd", args := [], env := [],
    tools := [{ name := Json.str ("zap"), description := Json.str (""),
                parameters := Json.obj [], server_name := "dead" }],
    connected := false, nextId := 3 }

/-- Fixture: a fresh server state as MCPServer.__init__ leaves it. -/
def c3fresh : ServerState :=
  { name := "srv", command := "cmd", args := [], env := [],
    tools := [], connected := false, nextId := 1 }

/-- Fixture: a well-formed initialize response (truthy dict without an error
key). -/
def c3goodInit : Option Json :=
  some (Json.obj [("jsonrpc", Json.str ("2.0")), ("id", Json.num 1),
    ("result", Json.obj [("capabilities", Json.obj [])])])

/-- Fixture: the characters of the referenced variable name MISSING. -/
def c2missingChars : List Char := ['M', 'I', 'S', 'S', 'I', 'N', 'G']

/-- Fixture: a template value that is one reference to the variable MISSING. -/
def c2tmpl : String := String.mk ([dollarChar, lbraceChar] ++ c2missingChars ++ [rbraceChar])

/-- Fixture: an ambient environment that does not define MISSING. -/
def c2osEnv : String → Option String :=
  fun v => if v = "HOME_DIR" then some ("/home/u") else none

/-- Fixture: a well-formed server configuration with no env templates. -/
def c2good : ServerCfg := { command := "cmd", args := [], env := [] }

/-- Fixture: a server configuration whose env references the missing variable. -/
def c2bad : ServerCfg := { command := "cmd", args := [], env := [("KEY", c2tmpl)] }

/-- Fixture: the state the first configured server reaches when its spawn
succeeds but its initialize request gets no response: one id consumed, not
connected. -/
def c2alphaState : ServerState :=
  { name := "alpha", command := "cmd", args := [], env := [],
    tools := [], connected := false, nextId := 2 }

/-- Fixture: the captured body of a well-formed ping tool-call block. -/
def c4raw : String := "call-ping-block"

/-- Fixture: a parse oracle mapping that body to a ping tool call. -/
def c4parse : String → Option Json := fun r =>
  if r = c4raw then
    some (Json.obj [("tool", Json.str ("ping")), ("arguments", Json.obj [])])
  else none

/-- Fixture: a response that is one ping tool-call block. -/
def c4resp : List Seg := [Seg.block c4raw]

/-- Fixture: a model oracle that emits that block on every turn. -/
def c4model : Nat → String → List Seg := fun _ _ => c4resp

/-- Fixture: a call oracle whose ping tool always answers pong. -/
def c4call : Nat → Json → Json → Option Json :=
  fun _ _ _ => some (Json.obj [("result", Json.str ("pong"))])

/-- Fixture: the captured body of the duplicated tool-call block. -/
def c9raw : String := "dup-ping-block"

/-- Fixture: a parse oracle mapping that body to a ping tool call. -/
def c9parse : String → Option Json := fun r =>
  if r = c9raw then some (Json.obj [("tool", Json.str ("ping"))]) else none

/-- Fixture: a response holding the identical block twice. -/
def c9segs : List Seg :=
  [Seg.block c9raw, Seg.text (" and again "), Seg.block c9raw]

/-- Fixture: a call oracle answering pong to every invocation. -/
def c9call : Nat → Json → Json → Option Json :=
  fun _ _ _ => some (Json.str ("pong"))

/-- Helper: the ids issued by n successive allocations from any state are the n
consecutive integers starting at its next_id. -/
theorem issuedIds_eq_range (n : Nat) :
    ∀ s : ServerState, issuedIds s n = (List.range n).map (fun k => k + s.nextId) := by
  induction n with
  | zero => intro s; simp [issuedIds]
  | succ m ih =>
    intro s
    rw [List.range_succ_eq_map]
    simp only [issuedIds, getNextId, List.map_cons, List.map_map, Nat.zero_add]
    rw [ih]
    congr 1
    apply List.map_congr_left
    intro k _
    simp only [Function.comp_apply]
    omega

/-- C7: the sequence of request ids a freshly constructed server issues over its
lifetime is the strictly increasing sequence of consecutive integers starting at
1 - the n-th issued id is n, so each id is one more than its predecessor and no
id recurs. -/
theorem c7_request_ids (osEnv : String → Option String) (name command : String)
    (args : List String) (env : List (String × String)) (s : ServerState)
    (h : mkMCPServer osEnv name command args env = Except.ok s) (n : Nat) :
    issuedIds s n = (List.range n).map (fun k => k + 1) := by
  have hs : s.nextId = 1 := by
    unfold mkMCPServer at h
    cases hr : resolveEnvVariables osEnv name env with
    | error e => rw [hr] at h; cases h
    | ok r => rw [hr] at h; cases h; rfl
  rw [issuedIds_eq_range, hs]

/-- Witness for C7: a concretely constructed server issues ids 1, 2, 3. -/
theorem c7_request_ids_witness :
    issuedIds { name := "srv", command := "cmd", args := [], env := [],
                tools := [], connected := false, nextId := 1 } 3
      = (List.range 3).map (fun k => k + 1) :=
  c7_request_ids (fun _ => none) "srv" "cmd" [] [] _ rfl 3

/-- C5: a model turn whose response contains zero fenced tool-call blocks makes
the orchestration loop stop after exactly one iteration and return that response
text unchanged, with nothing logged and no truncation. -/
theorem c5_no_blocks_one_iteration (model : Nat → String → List Seg)
    (parse : String → Option Json) (call : Nat → Json → Json → Option Json)
    (userMessage : String) (h : extractBlocks (model 1 userMessage) = []) :
    sendMessageToGemini model parse call userMessage =
      { answer := render (model 1 userMessage), iterations := 1, logs := [],
        truncated := false } := by
  show runLoop model parse call (9 + 1) 0 userMessage 0 [] [] = _
  simp only [runLoop]
  simp [h]

/-- Witness for C5: a plain-text response is returned unchanged after one
iteration. -/
theorem c5_witness :
    extractBlocks [Seg.text ("hi there")] = [] ∧
    sendMessageToGemini (fun _ _ => [Seg.text ("hi there")]) (fun _ => none)
        (fun _ _ _ => none) "question" =
      { answer := render [Seg.text ("hi there")], iterations := 1, logs := [],
        truncated := false } :=
  ⟨rfl, c5_no_blocks_one_iteration _ _ _ _ rfl⟩

/-- Helper: when no attempt yields a line, the polling loop produces the empty
response string. -/
theorem pollAux_all_empty (lines : Nat → String) :
    ∀ n k, (∀ j, j < n → lines (k + j) = "") → pollAux lines n k = "" := by
  intro n
  induction n with
  | zero => intro k _; rfl
  | succ m ih =>
    intro k h
    have h0 : lines k = "" := by simpa using h 0 (by omega)
    simp only [pollAux, h0]
    simp only [ne_eq, not_true_eq_false, if_false]
    apply ih
    intro j hj
    have := h (j + 1) (by omega)
    simpa [Nat.add_assoc, Nat.add_comm 1 j] using this

/-- C6: a call-time failure - no response line within the bounded polling
attempts, or a received line json.loads rejects - makes that one call yield no
result, and leaves the server's connected flag and tool list exactly as they
were, so the server stays available for future calls. -/
theorem c6_call_failure_keeps_server (parse : String → Option Json) (s : ServerState)
    (toolName arguments : Json) (lines : Nat → String)
    (h : (∀ j, j < maxResponseAttempts → lines j = "") ∨
      parse (pollAux lines maxResponseAttempts 0) = none) :
    (serverCallTool parse s toolName arguments lines).1 = none ∧
    (serverCallTool parse s toolName arguments lines).2.connected = s.connected ∧
    (serverCallTool parse s toolName arguments lines).2.tools = s.tools := by
  refine ⟨?_, rfl, rfl⟩
  show sendRequestResult parse lines = none
  unfold sendRequestResult
  rcases h with h | h
  · have he : pollAux lines maxResponseAttempts 0 = "" := by
      apply pollAux_all_empty
      intro j hj
      simpa using h j hj
    simp [he]
  · by_cases he : pollAux lines maxResponseAttempts 0 = ""
    · simp [he]
    · simp [he, h]

/-- Witness for C6: with no line ever arriving, a call on a connected server
returns none and the server stays connected with its tool list intact. -/
theorem c6_witness :
    (serverCallTool (fun _ => none)
        { name := "srv", command := "cmd", args := [], env := [],
          tools := [], connected := true, nextId := 3 }
        (Json.str ("ping")) (Json.obj []) (fun _ => "")).1 = none ∧
    (serverCallTool (fun _ => none)
        { name := "srv", command := "cmd", args := [], env := [],
          tools := [], connected := true, nextId := 3 }
        (Json.str ("ping")) (Json.obj []) (fun _ => "")).2.connected = true ∧
    (serverCallTool (fun _ => none)
        { name := "srv", command := "cmd", args := [], env := [],
          tools := [], connected := true, nextId := 3 }
        (Json.str ("ping")) (Json.obj []) (fun _ => "")).2.tools = [] :=
  c6_call_failure_keeps_server _ _ _ _ _ (Or.inl (fun _ _ => rfl))

/-- Helper: the tool-collecting fold started from any accumulator prepends it to
the tools collected from the servers. -/
theorem getAllTools_foldl (l : List ServerState) :
    ∀ acc : List MCPTool,
      l.foldl (fun allTools s => if s.connected then allTools ++ s.tools else allTools) acc =
        acc ++ getAllTools l := by
  induction l with
  | nil => intro acc; simp [getAllTools]
  | cons s rest ih =>
    intro acc
    simp only [getAllTools, List.foldl_cons]
    cases hc : s.connected
    · rw [if_neg (by simp), if_neg (by simp), ih acc, ih []]
      simp
    · rw [if_pos rfl, if_pos rfl, ih (acc ++ s.tools), ih ([] ++ s.tools)]
      simp [List.append_assoc]

/-- Helper: when no connected server's tool list holds the requested name, the
lookup inside MCPClient.call_tool finds no server. -/
theorem findToolServer_none (toolName : Json) :
    ∀ servers : List ServerState,
      (∀ srv ∈ servers, srv.connected = true → ∀ t ∈ srv.tools, t.name ≠ toolName) →
      findToolServer servers toolName = none := by
  intro servers
  induction servers with
  | nil => intro _; rfl
  | cons srv rest ih =>
    intro h
    have hrest : findToolServer rest toolName = none := by
      apply ih
      intro q hq
      exact h q (by simp [hq])
    unfold findToolServer
    by_cases hc : srv.connected = true
    · have hany : (srv.tools.any fun t => t.name == toolName) = false := by
        rw [List.any_eq_false]
        intro t ht
        simp only [beq_iff_eq]
        exact h srv (by simp) hc t ht
      simp [hc, hany, hrest]
    · simp only [Bool.not_eq_true] at hc
      simp [hc, hrest]

/-- C8: a server whose connected flag is false contributes no tools to the
aggregated registry - removing it from the server map leaves the full tool
listing unchanged - and looking up or invoking a tool name that no connected
server's tool list holds finds no server and returns none. -/
theorem c8_registry_excludes_disconnected :
    (∀ (pre post : List ServerState) (s : ServerState), s.connected = false →
      getAllTools (pre ++ s :: post) = getAllTools (pre ++ post)) ∧
    (∀ (parse : String → Option Json) (servers : List ServerState)
        (toolName arguments : Json) (lines : Nat → String),
      (∀ srv ∈ servers, srv.connected = true → ∀ t ∈ srv.tools, t.name ≠ toolName) →
      findToolServer servers toolName = none ∧
      clientCallTool parse servers toolName arguments lines = none) := by
  constructor
  · intro pre post s h
    unfold getAllTools
    rw [List.foldl_append, List.foldl_append]
    simp [h]
  · intro parse servers toolName arguments lines h
    have hfind := findToolServer_none toolName servers h
    refine ⟨hfind, ?_⟩
    unfold clientCallTool
    rw [hfind]

/-- Witness for C8: a disconnected server holding a descriptor adds nothing to
the listing, and an unknown name resolves to no server and returns none. -/
theorem c8_witness :
    getAllTools [c8deadServer, c1server] = getAllTools [c1server] ∧
    findToolServer [c1server] (Json.str ("ghost")) = none ∧
    clientCallTool (fun _ => none) [c1server] (Json.str ("ghost")) (Json.obj [])
      (fun _ => "") = none :=
  ⟨c8_registry_excludes_disconnected.1 [] [c1server] c8deadServer rfl,
    (c8_registry_excludes_disconnected.2 (fun _ => none) [c1server] (Json.str ("ghost"))
      (Json.obj []) (fun _ => "") (by decide)).1,
    (c8_registry_excludes_disconnected.2 (fun _ => none) [c1server] (Json.str ("ghost"))
      (Json.obj []) (fun _ => "") (by decide)).2⟩

/-- C1 counterexample: a turn with one well-formed block naming a tool unknown
to the registry makes the invocation fail (the failure is logged), yet the
accumulation list stays empty - no tool/result entry with error text is
recorded - and the loop returns the turn's text after one iteration. -/
theorem c1_counterexample :
    (processTurn c1parse c1call 0 c1resp (extractBlocks c1resp)).results = [] ∧
    LogEvent.toolFailed (Json.str ("ghost")) ∈
      (processTurn c1parse c1call 0 c1resp (extractBlocks c1resp)).logs ∧
    sendMessageToGemini c1model c1parse c1call "use the ghost tool" =
      { answer := render c1resp, iterations := 1,
        logs := [LogEvent.callingTool (Json.str ("ghost")) (Json.obj []),
                 LogEvent.toolFailed (Json.str ("ghost"))],
        truncated := false } := by
  refine ⟨by decide, by decide, by decide⟩

/-- C1 amended: a tool-call block whose invocation fails (the registry does not
know the tool, or the call returns no truthy result) is logged as a failure,
records no tool/result entry in the accumulation list, and leaves the transcript
untouched; no exception reaches the caller, the loop merely moves on. -/
theorem c1_amended_failed_call_not_recorded (parse : String → Option Json)
    (call : Nat → Json → Json → Option Json) (st : TurnSt) (raw : String)
    (kvs : List (String × Json)) (tn : Json)
    (hp : parse raw = some (Json.obj kvs)) (ht : jlookup "tool" kvs = some tn)
    (htr : tn.truthy = true)
    (hf : resultTruthy
        (call st.counter tn ((jlookup "arguments" kvs).getD (Json.obj []))) = false) :
    processBlock parse call st raw =
      { st with counter := st.counter + 1,
                logs := st.logs ++
                  [LogEvent.callingTool tn ((jlookup "arguments" kvs).getD (Json.obj [])),
                   LogEvent.toolFailed tn] } := by
  unfold processBlock
  rw [hp]
  simp only [ht, htr, if_true]
  cases hres : call st.counter tn ((jlookup "arguments" kvs).getD (Json.obj [])) with
  | none => simp [hres]
  | some r =>
    rw [hres] at hf
    simp [hres, hf]

/-- Witness for C1 amended: the unknown-tool block leaves the state with only the
two log events appended and the counter advanced. -/
theorem c1_amended_witness :
    processBlock c1parse c1call c1state c1raw =
      { c1state with counter := c1state.counter + 1,
                     logs := c1state.logs ++
                       [LogEvent.callingTool (Json.str ("ghost")) (Json.obj []),
                        LogEvent.toolFailed (Json.str ("ghost"))] } := by
  simpa using c1_amended_failed_call_not_recorded c1parse c1call c1state c1raw
    [("tool", Json.str ("ghost"))] (Json.str ("ghost")) rfl rfl rfl rfl

/-- C3 counterexample: a server whose initialize handshake succeeds but whose
tools/list request times out (no response line, so the method sees None) is
marked connected anyway, with an empty tool list, and start reports success. -/
theorem c3_counterexample :
    (initializeServer c3fresh c3goodInit none).1.connected = true ∧
    (initializeServer c3fresh c3goodInit none).1.tools = [] ∧
    (initializeServer c3fresh c3goodInit none).2 = true := by
  refine ⟨by decide, by decide, by decide⟩

/-- C3 amended: the connected flag is set if and only if the initialize
handshake succeeds (a present, truthy response without an error field); the
outcome of the tools/list exchange - timeout, error reply or malformed result -
never prevents the server from being marked connected. -/
theorem c3_amended_connected_iff_handshake (s : ServerState)
    (initResponse toolsResponse : Option Json) (h : s.connected = false) :
    ((initializeServer s initResponse toolsResponse).1.connected = true ↔
      handshakeOk initResponse = true) := by
  unfold initializeServer
  by_cases hh : handshakeOk initResponse = true
  · simp [hh]
  · simp only [Bool.not_eq_true] at hh
    simp [hh, getNextId, h]

/-- Witness for C3 amended: the fresh server with a good handshake and a timed
out tools/list is connected, matching the handshake test. -/
theorem c3_amended_witness :
    ((initializeServer c3fresh c3goodInit none).1.connected = true ↔
      handshakeOk c3goodInit = true) :=
  c3_amended_connected_iff_handshake _ _ _ rfl

/-- C2 counterexample: with three configured servers alpha, beta, gamma where
beta's env references a variable absent from the ambient environment, loading
raises the ValueError naming the variable and beta out of load_servers: alpha
was processed, but gamma - configured after beta - is never constructed or
started, refuting that every other configured server still proceeds. -/
theorem c2_counterexample :
    loadServers c2osEnv (fun _ => true) (fun _ => none) (fun _ => none)
        [("alpha", c2good), ("beta", c2bad), ("gamma", c2good)] =
      ([c2alphaState], some (envVarErrMsg ("MISSING") ("beta"))) := by
  simp +decide [loadServers, mkMCPServer, resolveEnvVariables, resolveChars, splitAtRBrace,
    serverStart, initializeServer, handshakeOk, getNextId, listToolsUpdate,
    c2good, c2bad, c2osEnv, c2tmpl, c2missingChars, c2alphaState, envVarErrMsg, sq]

/-- C2 amended: a missing referenced variable makes that server's construction
raise a ValueError naming the variable and the owning server, but the error is
not contained to that server: it escapes load_servers, so servers configured
before the failing one have already been processed while the failing server and
every server configured after it are never constructed or started. -/
theorem c2_amended_env_error_escapes (osEnv : String → Option String)
    (spawnOk : String → Bool) (initResponses toolsResponses : String → Option Json)
    (pre : List (String × ServerCfg)) (name : String) (cfg : ServerCfg)
    (post : List (String × ServerCfg)) (msg : String)
    (hpre : ∀ p ∈ pre, ∃ e, resolveEnvVariables osEnv p.1 p.2.env = Except.ok e)
    (hbad : resolveEnvVariables osEnv name cfg.env = Except.error msg) :
    loadServers osEnv spawnOk initResponses toolsResponses (pre ++ (name, cfg) :: post) =
      ((loadServers osEnv spawnOk initResponses toolsResponses pre).1, some msg) := by
  induction pre with
  | nil =>
    simp only [List.nil_append, loadServers, mkMCPServer, hbad]
  | cons p rest ih =>
    obtain ⟨n, c⟩ := p
    obtain ⟨e, he⟩ := hpre (n, c) (by simp)
    have ih2 := ih (fun q hq => hpre q (by simp [hq]))
    simp only [List.cons_append, loadServers, mkMCPServer, he, List.append_eq]
    rw [ih2]

/-- Witness for C2 amended: the beta failure leaves exactly alpha's state and
the escaped error message; gamma is dropped. -/
theorem c2_amended_witness :
    loadServers c2osEnv (fun _ => true) (fun _ => none) (fun _ => none)
        ([("alpha", c2good)] ++ ("beta", c2bad) :: [("gamma", c2good)]) =
      ((loadServers c2osEnv (fun _ => true) (fun _ => none) (fun _ => none)
          [("alpha", c2good)]).1,
        some (envVarErrMsg ("MISSING") ("beta"))) :=
  c2_amended_env_error_escapes c2osEnv (fun _ => true) (fun _ => none) (fun _ => none)
    [("alpha", c2good)] "beta" c2bad [("gamma", c2good)]
    (envVarErrMsg ("MISSING") ("beta"))
    (by intro p hp
        simp only [List.mem_singleton] at hp
        subst hp
        exact ⟨[], rfl⟩)
    (by simp +decide [resolveEnvVariables, resolveChars, splitAtRBrace,
          c2bad, c2osEnv, c2tmpl, c2missingChars, envVarErrMsg, sq])

/-- Helper: the tool-parsing loop over a run of well-formed entries followed by
an entry it aborts on keeps exactly the descriptors of the well-formed run and
reports the abort. -/
theorem parseTools_abort (serverName : String) (bad : Json) (rest : List Json)
    (hbad : entryTool serverName bad = none) :
    ∀ pre : List Json, (∀ e ∈ pre, (entryTool serverName e).isSome) →
      parseTools serverName (pre ++ bad :: rest) =
        (pre.filterMap (entryTool serverName), true) := by
  intro pre
  induction pre with
  | nil =>
    intro _
    simp only [List.nil_append, List.filterMap_nil]
    cases bad with
    | obj kvs =>
      cases hn : jlookup "name" kvs with
      | none => simp [parseTools, hn]
      | some nv => simp [entryTool, hn] at hbad
    | null => simp [parseTools]
    | bool b => simp [parseTools]
    | num m => simp [parseTools]
    | str s => simp [parseTools]
    | arr l => simp [parseTools]
  | cons x xs ih =>
    intro h
    have hx := h x (by simp)
    cases x with
    | obj kvs =>
      cases hn : jlookup "name" kvs with
      | none => simp [entryTool, hn] at hx
      | some nv =>
        simp only [List.cons_append, parseTools, hn, List.append_eq]
        rw [ih (fun e he => h e (by simp [he]))]
        simp [entryTool, hn, List.filterMap_cons]
    | null => simp [entryTool] at hx
    | bool b => simp [entryTool] at hx
    | num m => simp [entryTool] at hx
    | str s => simp [entryTool] at hx
    | arr l => simp [entryTool] at hx

/-- C10: discovery tolerates absent optional fields - an entry with a name but
no description yields the empty-string description, no inputSchema yields the
empty schema - while an entry without a name field aborts the parsing loop,
keeping the descriptors parsed before it; and a server whose handshake succeeded
is marked connected with exactly the parsed descriptors, whatever the entry
list. -/
theorem c10_discovery_defaults_and_abort :
    (∀ (serverName : String) (kvs : List (String × Json)) (n : Json) (rest : List Json),
      jlookup "name" kvs = some n → jlookup "description" kvs = none →
      jlookup "inputSchema" kvs = none →
      parseTools serverName (Json.obj kvs :: rest) =
        ({ name := n, description := Json.str (""), parameters := Json.obj [],
           server_name := serverName } :: (parseTools serverName rest).1,
         (parseTools serverName rest).2)) ∧
    (∀ (serverName : String) (bad : Json) (rest : List Json) (pre : List Json),
      entryTool serverName bad = none →
      (∀ e ∈ pre, (entryTool serverName e).isSome) →
      parseTools serverName (pre ++ bad :: rest) =
        (pre.filterMap (entryTool serverName), true)) ∧
    (∀ (s : ServerState) (initResponse : Option Json) (entries : List Json),
      handshakeOk initResponse = true →
      (initializeServer s initResponse
          (some (Json.obj [("result", Json.obj [("tools", Json.arr entries)])]))).1.connected
          = true ∧
      (initializeServer s initResponse
          (some (Json.obj [("result", Json.obj [("tools", Json.arr entries)])]))).1.tools =
        (parseTools s.name entries).1) := by
  refine ⟨?_, ?_, ?_⟩
  · intro serverName kvs n rest h1 h2 h3
    simp [parseTools, h1, h2, h3]
  · intro serverName bad rest pre hbad h
    exact parseTools_abort serverName bad rest hbad pre h
  · intro s initResponse entries hgood
    constructor
    · simp [initializeServer, hgood, getNextId]
    · simp [initializeServer, hgood, getNextId, listToolsUpdate, Json.truthy,
        pyIn, pyGetItem, jlookup]

/-- Witness for C10: a concrete entry list exercising the defaults, the abort
with a retained prefix, and the connected flag after discovery. -/
theorem c10_witness :
    parseTools "srv" (Json.obj [("name", Json.str ("t1"))] :: []) =
      ({ name := Json.str ("t1"), description := Json.str (""), parameters := Json.obj [],
         server_name := "srv" } :: (parseTools "srv" []).1, (parseTools "srv" []).2) ∧
    parseTools "srv"
        ([Json.obj [("name", Json.str ("a"))]] ++
          Json.obj [("description", Json.str ("entry without a name"))] ::
            [Json.obj [("name", Json.str ("b"))]]) =
      ([Json.obj [("name", Json.str ("a"))]].filterMap (entryTool "srv"), true) ∧
    ((initializeServer c3fresh c3goodInit
        (some (Json.obj [("result",
          Json.obj [("tools", Json.arr [Json.obj [("name", Json.str ("x"))]])])]))).1.connected
        = true ∧
     (initializeServer c3fresh c3goodInit
        (some (Json.obj [("result",
          Json.obj [("tools", Json.arr [Json.obj [("name", Json.str ("x"))]])])]))).1.tools =
       (parseTools c3fresh.name [Json.obj [("name", Json.str ("x"))]]).1) :=
  ⟨c10_discovery_defaults_and_abort.1 "srv" [("name", Json.str ("t1"))] (Json.str ("t1")) []
      rfl rfl rfl,
   c10_discovery_defaults_and_abort.2.1 "srv"
      (Json.obj [("description", Json.str ("entry without a name"))])
      [Json.obj [("name", Json.str ("b"))]] [Json.obj [("name", Json.str ("a"))]]
      rfl (by decide),
   c10_discovery_defaults_and_abort.2.2 c3fresh c3goodInit
      [Json.obj [("name", Json.str ("x"))]] rfl⟩

/-- Helper: when every reachable turn accumulates at least one result, the loop
burns all its fuel, logs the truncation event, reports truncation, and answers
with the raw text of the last response the model produced. -/
theorem runLoop_all_tool_turns (model : Nat → String → List Seg)
    (parse : String → Option Json) (call : Nat → Json → Json → Option Json) :
    ∀ (fuel iteration : Nat) (currentMessage : String) (counter : Nat)
      (logs : List LogEvent) (lastResponse : List Seg),
      (∀ (i : Nat) (m : String) (c : Nat), iteration < i → i ≤ iteration + fuel →
        (processTurn parse call c (model i m) (extractBlocks (model i m))).results ≠ []) →
      (runLoop model parse call fuel iteration currentMessage counter logs
          lastResponse).iterations = iteration + fuel ∧
      (runLoop model parse call fuel iteration currentMessage counter logs
          lastResponse).truncated = true ∧
      LogEvent.maxIterationsReached ∈
        (runLoop model parse call fuel iteration currentMessage counter logs
          lastResponse).logs ∧
      (fuel = 0 →
        (runLoop model parse call fuel iteration currentMessage counter logs
          lastResponse).answer = render lastResponse) ∧
      (0 < fuel → ∃ m,
        (runLoop model parse call fuel iteration currentMessage counter logs
          lastResponse).answer = render (model (iteration + fuel) m)) := by
  intro fuel
  induction fuel with
  | zero =>
    intro iteration currentMessage counter logs lastResponse _
    refine ⟨rfl, rfl, by simp [runLoop], fun _ => rfl, fun h => absurd h (by omega)⟩
  | succ f ihf =>
    intro iteration currentMessage counter logs lastResponse H
    have Hhead := H (iteration + 1) currentMessage counter (by omega) (by omega)
    have hbl : (extractBlocks (model (iteration + 1) currentMessage)).isEmpty = false := by
      cases hb : extractBlocks (model (iteration + 1) currentMessage) with
      | nil =>
        exfalso
        apply Hhead
        rw [hb]
        rfl
      | cons a l => rfl
    have hres : (processTurn parse call counter (model (iteration + 1) currentMessage)
        (extractBlocks (model (iteration + 1) currentMessage))).results.isEmpty = false := by
      cases hr : (processTurn parse call counter (model (iteration + 1) currentMessage)
          (extractBlocks (model (iteration + 1) currentMessage))).results with
      | nil => exact absurd hr Hhead
      | cons a l => rfl
    have hstep : runLoop model parse call (f + 1) iteration currentMessage counter logs
        lastResponse =
        runLoop model parse call f (iteration + 1)
          (buildResultsMessage (processTurn parse call counter
            (model (iteration + 1) currentMessage)
            (extractBlocks (model (iteration + 1) currentMessage))).results)
          (processTurn parse call counter (model (iteration + 1) currentMessage)
            (extractBlocks (model (iteration + 1) currentMessage))).counter
          (logs ++ (processTurn parse call counter (model (iteration + 1) currentMessage)
            (extractBlocks (model (iteration + 1) currentMessage))).logs)
          (model (iteration + 1) currentMessage) := by
      simp only [runLoop]
      simp [hbl, hres]
    obtain ⟨ih1, ih2, ih3, ih4, ih5⟩ := ihf (iteration + 1)
      (buildResultsMessage (processTurn parse call counter
        (model (iteration + 1) currentMessage)
        (extractBlocks (model (iteration + 1) currentMessage))).results)
      (processTurn parse call counter (model (iteration + 1) currentMessage)
        (extractBlocks (model (iteration + 1) currentMessage))).counter
      (logs ++ (processTurn parse call counter (model (iteration + 1) currentMessage)
        (extractBlocks (model (iteration + 1) currentMessage))).logs)
      (model (iteration + 1) currentMessage)
      (fun i m c h1 h2 => H i m c (by omega) (by omega))
    refine ⟨?_, ?_, ?_, ?_, ?_⟩
    · rw [hstep, ih1]
      omega
    · rw [hstep]
      exact ih2
    · rw [hstep]
      exact ih3
    · intro h
      exact absurd h (by omega)
    · intro _
      rcases Nat.eq_zero_or_pos f with hf | hf
      · subst hf
        refine ⟨currentMessage, ?_⟩
        rw [hstep]
        have := ih4 rfl
        rw [this]
      · obtain ⟨m, hm⟩ := ih5 hf
        have he : iteration + 1 + f = iteration + (f + 1) := by omega
        rw [he] at hm
        refine ⟨m, ?_⟩
        rw [hstep, hm]

/-- C4: when the model emits at least one block with a recorded result on every
turn, the orchestration loop performs exactly the fixed cap of 10 iterations,
logs the truncation event, reports truncation, and returns the 10th turn's raw
response text, with no tool-result substitution applied to it. -/
theorem c4_cap_ten_iterations (model : Nat → String → List Seg)
    (parse : String → Option Json) (call : Nat → Json → Json → Option Json)
    (userMessage : String)
    (H : ∀ (i : Nat) (m : String) (c : Nat), 1 ≤ i → i ≤ maxToolIterations →
      (processTurn parse call c (model i m) (extractBlocks (model i m))).results ≠ []) :
    (sendMessageToGemini model parse call userMessage).iterations = 10 ∧
    (sendMessageToGemini model parse call userMessage).truncated = true ∧
    LogEvent.maxIterationsReached ∈ (sendMessageToGemini model parse call userMessage).logs ∧
    ∃ m, (sendMessageToGemini model parse call userMessage).answer = render (model 10 m) := by
  obtain ⟨h1, h2, h3, _, h5⟩ := runLoop_all_tool_turns model parse call 10 0 userMessage 0 [] []
    (fun i m c hi hb => H i m c (by omega) (by simpa [maxToolIterations] using hb))
  exact ⟨h1, h2, h3, h5 (by omega)⟩

/-- Witness for C4: a model that emits the ping block on every turn, with the
tool always answering, drives the loop through all 10 iterations. -/
theorem c4_witness :
    (sendMessageToGemini c4model c4parse c4call "go").iterations = 10 ∧
    (sendMessageToGemini c4model c4parse c4call "go").truncated = true ∧
    LogEvent.maxIterationsReached ∈ (sendMessageToGemini c4model c4parse c4call "go").logs ∧
    ∃ m, (sendMessageToGemini c4model c4parse c4call "go").answer = render (c4model 10 m) :=
  c4_cap_ten_iterations c4model c4parse c4call "go"
    (fun i m c _ _ => by
      simp [processTurn, extractBlocks, c4model, c4resp, processBlock, c4parse, c4raw,
        c4call, resultTruthy, Json.truthy, jlookup])

/-- Helper: substituting a block that was already substituted away changes
nothing - the first replacement removed every occurrence. -/
theorem substBlock_substBlock (b x y : String) :
    ∀ segs : List Seg, substBlock b x (substBlock b y segs) = substBlock b y segs := by
  intro segs
  induction segs with
  | nil => rfl
  | cons s rest ih =>
    cases s with
    | text t => simp [substBlock] at ih ⊢; exact ih
    | block b2 =>
      by_cases hb : b2 = b
      · simp [substBlock, hb] at ih ⊢; exact ih
      · simp [substBlock, hb] at ih ⊢; exact ih

/-- Helper: one successful block execution - parseable body, truthy tool name,
truthy call result - substitutes the block everywhere in the transcript, records
the tool/result pair, advances the call counter and logs the invocation. -/
theorem processBlock_success (parse : String → Option Json)
    (call : Nat → Json → Json → Option Json) (st : TurnSt) (b : String)
    (kvs : List (String × Json)) (tn : Json) (r : Nat → Json)
    (hp : parse b = some (Json.obj kvs)) (ht : jlookup "tool" kvs = some tn)
    (htr : tn.truthy = true)
    (hc : ∀ n, call n tn ((jlookup "arguments" kvs).getD (Json.obj [])) = some (r n))
    (hrt : ∀ n, (r n).truthy = true) :
    processBlock parse call st b =
      { transcript := substBlock b (replText tn (extractContent (r st.counter))) st.transcript,
        results := st.results ++ [{ tool := tn, result := extractContent (r st.counter) }],
        counter := st.counter + 1,
        logs := st.logs ++
          [LogEvent.callingTool tn ((jlookup "arguments" kvs).getD (Json.obj [])),
           LogEvent.toolSuccess tn] } := by
  unfold processBlock
  rw [hp]
  simp only [ht, htr, if_true]
  rw [hc st.counter]
  simp [resultTruthy, hrt st.counter, List.append_assoc]

/-- Helper: processing m further copies of a block whose occurrences are already
substituted out of the transcript leaves the transcript fixed while still
invoking the tool once per copy and appending one result record per copy. -/
theorem processTurn_replicate_fixed (parse : String → Option Json)
    (call : Nat → Json → Json → Option Json) (b : String)
    (kvs : List (String × Json)) (tn : Json) (r : Nat → Json)
    (hp : parse b = some (Json.obj kvs)) (ht : jlookup "tool" kvs = some tn)
    (htr : tn.truthy = true)
    (hc : ∀ n, call n tn ((jlookup "arguments" kvs).getD (Json.obj [])) = some (r n))
    (hrt : ∀ n, (r n).truthy = true) :
    ∀ (m : Nat) (st : TurnSt),
      (∀ x, substBlock b x st.transcript = st.transcript) →
      (List.foldl (processBlock parse call) st (List.replicate m b)).transcript =
        st.transcript ∧
      (List.foldl (processBlock parse call) st (List.replicate m b)).results =
        st.results ++ resList tn r st.counter m ∧
      (List.foldl (processBlock parse call) st (List.replicate m b)).counter =
        st.counter + m := by
  intro m
  induction m with
  | zero =>
    intro st _
    refine ⟨rfl, by simp [resList], rfl⟩
  | succ m2 ih =>
    intro st hT
    rw [List.replicate_succ, List.foldl_cons,
      processBlock_success parse call st b kvs tn r hp ht htr hc hrt]
    have hT2 : ∀ x, substBlock b x
        (substBlock b (replText tn (extractContent (r st.counter))) st.transcript) =
        substBlock b (replText tn (extractContent (r st.counter))) st.transcript := by
      intro x
      exact substBlock_substBlock b x (replText tn (extractContent (r st.counter)))
        st.transcript
    obtain ⟨ih1, ih2, ih3⟩ := ih
      { transcript := substBlock b (replText tn (extractContent (r st.counter))) st.transcript,
        results := st.results ++ [{ tool := tn, result := extractContent (r st.counter) }],
        counter := st.counter + 1,
        logs := st.logs ++
          [LogEvent.callingTool tn ((jlookup "arguments" kvs).getD (Json.obj [])),
           LogEvent.toolSuccess tn] } hT2
    refine ⟨?_, ?_, ?_⟩
    · rw [ih1]
      exact hT (replText tn (extractContent (r st.counter)))
    · rw [ih2]
      simp [resList, List.append_assoc]
    · rw [ih3]
      show st.counter + 1 + m2 = st.counter + (m2 + 1)
      omega

/-- C9: when the identical block body occurs k times in the response (k at least
2), the loop invokes the tool once per occurrence - the call counter advances by
k and k result records accumulate, the j-th holding the j-th invocation's
extracted result - yet the transcript substitution performed for the first
invocation already replaced all k occurrences with the first invocation's
result, so later invocations' results never appear in the displayed
transcript. -/
theorem c9_duplicate_blocks (parse : String → Option Json)
    (call : Nat → Json → Json → Option Json) (counter0 : Nat) (segs : List Seg)
    (b : String) (k : Nat) (kvs : List (String × Json)) (tn : Json) (r : Nat → Json)
    (hk : 2 ≤ k) (hblocks : extractBlocks segs = List.replicate k b)
    (hp : parse b = some (Json.obj kvs)) (ht : jlookup "tool" kvs = some tn)
    (htr : tn.truthy = true)
    (hc : ∀ n, call n tn ((jlookup "arguments" kvs).getD (Json.obj [])) = some (r n))
    (hrt : ∀ n, (r n).truthy = true) :
    (processTurn parse call counter0 segs (extractBlocks segs)).counter = counter0 + k ∧
    (processTurn parse call counter0 segs (extractBlocks segs)).results =
      resList tn r counter0 k ∧
    (processTurn parse call counter0 segs (extractBlocks segs)).transcript =
      substBlock b (replText tn (extractContent (r counter0))) segs := by
  rw [hblocks]
  unfold processTurn
  obtain ⟨k1, rfl⟩ : ∃ k1, k = k1 + 1 := ⟨k - 1, by omega⟩
  rw [List.replicate_succ, List.foldl_cons,
    processBlock_success parse call _ b kvs tn r hp ht htr hc hrt]
  have hT2 : ∀ x, substBlock b x (substBlock b (replText tn (extractContent (r counter0))) segs) =
      substBlock b (replText tn (extractContent (r counter0))) segs :=
    fun x => substBlock_substBlock b x (replText tn (extractContent (r counter0))) segs
  obtain ⟨ih1, ih2, ih3⟩ := processTurn_replicate_fixed parse call b kvs tn r hp ht htr hc hrt
    k1
    { transcript := substBlock b (replText tn (extractContent (r counter0))) segs,
      results := [] ++ [{ tool := tn, result := extractContent (r counter0) }],
      counter := counter0 + 1,
      logs := [] ++
        [LogEvent.callingTool tn ((jlookup "arguments" kvs).getD (Json.obj [])),
         LogEvent.toolSuccess tn] } hT2
  refine ⟨?_, ?_, ?_⟩
  · rw [ih3]
    show counter0 + 1 + k1 = counter0 + (k1 + 1)
    omega
  · rw [ih2]
    simp [resList]
  · rw [ih1]

/-- Witness for C9: the duplicated ping block is invoked twice and both results
are recorded, while the transcript holds the first result at both positions. -/
theorem c9_witness :
    (processTurn c9parse c9call 0 c9segs (extractBlocks c9segs)).counter = 0 + 2 ∧
    (processTurn c9parse c9call 0 c9segs (extractBlocks c9segs)).results =
      resList (Json.str ("ping")) (fun _ => Json.str ("pong")) 0 2 ∧
    (processTurn c9parse c9call 0 c9segs (extractBlocks c9segs)).transcript =
      substBlock c9raw (replText (Json.str ("ping")) (extractContent (Json.str ("pong"))))
        c9segs :=
  c9_duplicate_blocks c9parse c9call 0 c9segs c9raw 2 [("tool", Json.str ("ping"))]
    (Json.str ("ping")) (fun _ => Json.str ("pong")) (by omega) rfl rfl rfl rfl
    (fun _ => rfl) (fun _ => rfl)

end MCPTui
